import Mathlib

/-!
Shallow embedding of src/gpt4all.ts (nomic-ai/gpt4all-llama-ts), covering the
session controller's prompt/response protocol (prompt, close), the artifact
provisioner (init, downloadFile) and the redirect follower (followRedirects).
Stateful, event-driven code is modelled by explicit state passing: a prompt in
flight is a PendingResponse driven by stdout-chunk and idle-timer events, the
subprocess handle is an Option, and the network is the finite list of responses
successive get requests receive.
-/

/-- The ESC control character U+001B anchoring the completion regex. -/
def escChar : Char := Char.ofNat 27

/-- Splits a character list at newline characters into lines. -/
def splitOnNewline : List Char → List (List Char)
  | [] => [[]]
  | c :: rest =>
    match splitOnNewline rest with
    | [] => [[]]
    | l :: ls => if c = '\n' then [] :: l :: ls else (c :: l) :: ls

/-- Tests whether a line begins with the given character. -/
def lineStartsWith (l : List Char) (c : Char) : Bool :=
  match l with
  | [] => false
  | a :: _ => a == c

/-- Models the multiline test of the completion regex (gpt4all.ts line 170,
an ESC at a line start, then any non-newline characters, a newline, and the
prompt marker with optional trailing whitespace) against one stdout chunk:
it matches iff some line of the chunk begins with the ESC control character
and the following line begins with the prompt marker. The dot of the regex
cannot cross a newline, so the newline it consumes is the one ending the
ESC-led line, and the optional whitespace constrains nothing. -/
def matchesPromptPattern (text : String) : Bool :=
  let ls := splitOnNewline text.data
  (ls.zip ls.tail).any fun p => lineStartsWith p.1 escChar && lineStartsWith p.2 '>'

/-- A concrete chunk matching the completion regex: an ESC-led line followed by
a line starting with the prompt marker. -/
def escPromptChunk : String := String.mk (escChar :: String.data "[0m\n> ")

/-- Models the end of terminateAndResolve (gpt4all.ts lines 197-200): one
trailing prompt-marker character is dropped from the accumulated text when it
is the final character (endsWith then slice(0,-1)); any character after it,
such as a space, defeats the check. -/
def stripTrailingGt (s : String) : String :=
  match s.data.getLast? with
  | some c => if c = '>' then String.mk s.data.dropLast else s
  | none => s

/-- The fixed idle timeout of the prompt protocol, in milliseconds. -/
def IDLE_TIMEOUT_MS : Nat := 4000

/-- The transient accumulator of one pending prompt call (gpt4all.ts lines
161-162): the accumulated response text and the armed idle timer, if any,
recorded as the instant (ms) at which it fires. The fresh listener starts with
an empty buffer and no timer (timeoutId is undefined until a chunk arrives). -/
structure PendingResponse where
  response : String
  timer : Option Nat
deriving DecidableEq

/-- Result of feeding an event to a pending prompt: still pending with an
updated accumulator, or resolved with the final text. -/
inductive PromptOutcome where
  | pending (st : PendingResponse)
  | resolved (text : String)
deriving DecidableEq

/-- One stdout data event while the prompt is pending (gpt4all.ts onStdoutData,
lines 164-186). Any armed idle timer is cleared. If the chunk matches the
completion regex, terminateAndResolve runs on the buffer as it stood BEFORE the
chunk: response += text executes only after resolve, so the matching chunk's
bytes are excluded. Otherwise a fresh idle timer firing IDLE_TIMEOUT_MS after
the chunk's arrival instant is armed and the chunk is appended. -/
def onStdoutData (st : PendingResponse) (now : Nat) (text : String) : PromptOutcome :=
  if matchesPromptPattern text then
    PromptOutcome.resolved (stripTrailingGt st.response)
  else
    PromptOutcome.pending
      { response := st.response ++ text, timer := some (now + IDLE_TIMEOUT_MS) }

/-- Runs a pending prompt over a finite schedule of timed stdout chunks. Once a
chunk resolves the promise, the listeners are removed and later events are
ignored. -/
def runChunks (st : PendingResponse) : List (Nat × String) → PromptOutcome
  | [] => PromptOutcome.pending st
  | (t, c) :: rest =>
    match onStdoutData st t c with
    | PromptOutcome.resolved r => PromptOutcome.resolved r
    | PromptOutcome.pending st2 => runChunks st2 rest

/-- Outcome of one prompt call whose subprocess emits the given chunks and then
stays silent forever: resolution happens either at a pattern-matching chunk, or
when the idle timer armed by the last chunk fires (terminateAndResolve on the
accumulated buffer, gpt4all.ts lines 175-179). If no chunk ever arrives, no
timer was ever armed and the promise never settles (none). -/
def promptOutcomeWithSilence (chunks : List (Nat × String)) : Option String :=
  match runChunks { response := "", timer := none } chunks with
  | PromptOutcome.resolved r => some r
  | PromptOutcome.pending st =>
    match st.timer with
    | some _ => some (stripTrailingGt st.response)
    | none => none

/-- State of the bot.stdout / bot.stdin streams seen by prompt calls: the
strings written to the subprocess stdin so far and the data listeners currently
registered on stdout, in registration order. -/
structure BotSession where
  stdinWrites : List String
  listeners : List PendingResponse
deriving DecidableEq

namespace GPT4All

/-- Body of prompt() once the bot handle is non-null (gpt4all.ts lines 158-206):
prompt + newline is written to the subprocess stdin and a fresh data listener
with an empty buffer and no timer is registered. No check, queue or busy flag
guards against a listener of an earlier, still-pending call. -/
def promptCall (s : BotSession) (text : String) : BotSession :=
  { stdinWrites := s.stdinWrites ++ [text ++ "\n"],
    listeners := s.listeners ++ [{ response := "", timer := none }] }

/-- Entry of prompt() (gpt4all.ts lines 152-158): with a null bot handle it
throws Error('Bot is not initialized.') before touching any stream; otherwise
it performs the stdin write and listener registration of promptCall. -/
def promptEntry (bot : Option BotSession) (text : String) : Except String BotSession :=
  match bot with
  | none => Except.error "Bot is not initialized."
  | some s => Except.ok (promptCall s text)

/-- One data event on bot.stdout (Node EventEmitter semantics): every listener
registered at emit time receives the chunk; a listener whose pattern check
fires resolves its promise and removes itself, every other listener appends
the chunk to its own buffer. Returns the session after the event together with
the values resolved during it. -/
def dataEvent (s : BotSession) (now : Nat) (text : String) : BotSession × List String :=
  let res := s.listeners.map (fun l => onStdoutData l now text)
  ( { s with
      listeners := res.filterMap (fun o =>
        match o with
        | PromptOutcome.pending st => some st
        | PromptOutcome.resolved _ => none) },
    res.filterMap (fun o =>
      match o with
      | PromptOutcome.pending _ => none
      | PromptOutcome.resolved r => some r) )

/-- close() (gpt4all.ts lines 95-99): a no-op when the bot handle is already
null; otherwise kill() the subprocess and clear the handle. close never throws.
The returned Nat counts the kill() calls made by this invocation. -/
def close (bot : Option BotSession) : Option BotSession × Nat :=
  match bot with
  | none => (none, 0)
  | some _ => (none, 1)

/-- The two artifacts the provisioner downloads. -/
inductive Artifact where
  | executable
  | modelFile
deriving DecidableEq

/-- Provisioner-relevant instance state: the downloadPromises field (declared
null at gpt4all.ts line 33) and whether the executable and model files exist
on disk. -/
structure ProvisionerState where
  downloadPromises : Option (List Artifact)
  execPresent : Bool
  modelPresent : Bool
deriving DecidableEq

/-- init(forceDownload) (gpt4all.ts lines 55-68): if this.downloadPromises is
non-null, the stored promises are awaited and no new download starts; otherwise
a LOCAL array of download tasks is built from forceDownload and file existence
and awaited. The field this.downloadPromises is initialized to null in the
class body and assigned nowhere in the source, so the instance state is
returned unchanged; the list is the downloads started by this call. -/
def init (st : ProvisionerState) (forceDownload : Bool) :
    ProvisionerState × List Artifact :=
  match st.downloadPromises with
  | some _ => (st, [])
  | none =>
    ( st,
      (if forceDownload || !st.execPresent then [Artifact.executable] else []) ++
      (if forceDownload || !st.modelPresent then [Artifact.modelFile] else []) )

end GPT4All

/-- An HTTP response as the code reads it: response.statusCode,
response.headers.location and response.headers['content-length']. -/
structure HttpResponse where
  statusCode : Option Nat
  location : Option String
  contentLength : Option String
deriving DecidableEq

/-- The redirect test of followRedirects (gpt4all.ts line 234). -/
def isRedirect (r : HttpResponse) : Bool :=
  r.statusCode == some 301 || r.statusCode == some 302

/-- followRedirects (gpt4all.ts lines 227-237), run against a network modelled
as the finite list of responses that successive get requests receive. A none
url models the undefined argument, thrown as 'No URL provided'; an exhausted
response list models a network that never answers (the get callback never
fires, so the promise never settles: none). Otherwise the result is the first
non-redirect response together with the number of get requests made. -/
def followRedirects (url : Option String) (net : List HttpResponse) :
    Option (Except String (HttpResponse × Nat)) :=
  match url with
  | none => some (Except.error "No URL provided")
  | some _ =>
    match net with
    | [] => none
    | r :: rest =>
      if isRedirect r then
        match followRedirects r.location rest with
        | some (Except.ok (final, n)) => some (Except.ok (final, n + 1))
        | other => other
      else some (Except.ok (r, 1))

/-- A JavaScript number as Number(string) can produce it: NaN, a finite value
(held exactly as a rational; JavaScript's -0 is collapsed into 0, which this
code cannot observe since -0 is falsy and strictly equal to 0), or a signed
infinity. -/
inductive JsNumber where
  | nan
  | finite (q : ℚ)
  | posInf
  | negInf
deriving DecidableEq

/-- The white-space and line-terminator characters Number(string) trims
(StrWhiteSpaceChar): tab, LF, VT, FF, CR, space, NBSP, the Unicode
space-separator characters, LS, PS and the BOM. -/
def isJsWhitespace (c : Char) : Bool :=
  [9, 10, 11, 12, 13, 32, 160, 5760, 8192, 8193, 8194, 8195, 8196, 8197, 8198,
   8199, 8200, 8201, 8202, 8232, 8233, 8239, 8287, 12288, 65279].contains c.toNat

/-- Trims leading and trailing StrWhiteSpace from a character list. -/
def jsTrim (cs : List Char) : List Char :=
  ((cs.dropWhile isJsWhitespace).reverse.dropWhile isJsWhitespace).reverse

/-- Value of a string of decimal digit characters. -/
def decDigitsVal (cs : List Char) : Nat :=
  cs.foldl (fun a c => a * 10 + (c.toNat - 48)) 0

/-- Value of one hexadecimal digit character, none otherwise. -/
def hexDigitVal? (c : Char) : Option Nat :=
  if c.isDigit then some (c.toNat - 48)
  else if 'a' ≤ c ∧ c ≤ 'f' then some (c.toNat - 87)
  else if 'A' ≤ c ∧ c ≤ 'F' then some (c.toNat - 55)
  else none

/-- Value of a non-empty digit string in the given radix (2, 8 or 16); none on
an empty string or a digit outside the radix. -/
def radixVal? (radix : Nat) (cs : List Char) : Option Nat :=
  match cs with
  | [] => none
  | _ :: _ =>
    cs.foldl (fun acc c =>
      match acc, hexDigitVal? c with
      | some a, some d => if d < radix then some (a * radix + d) else none
      | _, _ => none) (some 0)

/-- Exact value of a decimal literal with integer digits, fraction digits and a
decimal exponent: digits-as-integer scaled by 10 to the exponent minus the
fraction length. -/
def decValue (intPart fracPart : List Char) (exp : Int) : ℚ :=
  let num : Nat := decDigitsVal (intPart ++ fracPart)
  match exp - (fracPart.length : Int) with
  | Int.ofNat k => mkRat (num * 10 ^ k) 1
  | Int.negSucc k => mkRat num (10 ^ (k + 1))

/-- ExponentPart digits after the e or E: an optional sign, then at least one
decimal digit; none otherwise. -/
def parseExp (cs : List Char) : Option Int :=
  match cs with
  | '+' :: r =>
    if r = [] then none
    else if r.all Char.isDigit then some (decDigitsVal r) else none
  | '-' :: r =>
    if r = [] then none
    else if r.all Char.isDigit then some (-(decDigitsVal r : Int)) else none
  | r =>
    if r = [] then none
    else if r.all Char.isDigit then some (decDigitsVal r) else none

/-- StrUnsignedDecimalLiteral without the Infinity form: DecimalDigits with an
optional dot, optional fraction digits and an optional exponent, needing at
least one digit overall and nothing else in the string; none when the string
is not of that shape. -/
def parseDecMantissaExp (cs : List Char) : Option ℚ :=
  let intPart := cs.takeWhile Char.isDigit
  let rest1 := cs.dropWhile Char.isDigit
  let fracPart :=
    match rest1 with
    | '.' :: r => r.takeWhile Char.isDigit
    | _ => []
  let rest2 :=
    match rest1 with
    | '.' :: r => r.dropWhile Char.isDigit
    | _ => rest1
  if intPart = [] ∧ fracPart = [] then none
  else
    match rest2 with
    | [] => some (decValue intPart fracPart 0)
    | e :: r3 =>
      if e = 'e' ∨ e = 'E' then
        match parseExp r3 with
        | some k => some (decValue intPart fracPart k)
        | none => none
      else none

/-- StrUnsignedDecimalLiteral: the literal Infinity, or a decimal
mantissa-exponent literal; anything else is NaN. -/
def unsignedDec (cs : List Char) (neg : Bool) : JsNumber :=
  if cs = "Infinity".data then (if neg then JsNumber.negInf else JsNumber.posInf)
  else
    match parseDecMantissaExp cs with
    | some q => JsNumber.finite (if neg then -q else q)
    | none => JsNumber.nan

/-- StrDecimalLiteral: an optional sign followed by an unsigned decimal
literal. -/
def signedDec (cs : List Char) : JsNumber :=
  match cs with
  | '+' :: r => unsignedDec r false
  | '-' :: r => unsignedDec r true
  | r => unsignedDec r false

/-- StrNumericLiteral of a trimmed string: empty is 0; a 0x/0o/0b prefix (no
sign allowed) is a hex, octal or binary integer; everything else takes the
signed decimal path. -/
def jsNumberOfTrimmed (cs : List Char) : JsNumber :=
  match cs with
  | [] => JsNumber.finite 0
  | '0' :: c :: r =>
    if c = 'x' ∨ c = 'X' then
      match radixVal? 16 r with
      | some n => JsNumber.finite (mkRat n 1)
      | none => JsNumber.nan
    else if c = 'o' ∨ c = 'O' then
      match radixVal? 8 r with
      | some n => JsNumber.finite (mkRat n 1)
      | none => JsNumber.nan
    else if c = 'b' ∨ c = 'B' then
      match radixVal? 2 r with
      | some n => JsNumber.finite (mkRat n 1)
      | none => JsNumber.nan
    else signedDec cs
  | _ => signedDec cs

/-- Models JavaScript's Number(string) conversion (the StringNumericLiteral
grammar): trim white space, then an empty string is 0, and otherwise a signed
decimal literal (with optional fraction and exponent), Infinity, or an
unsigned 0x/0o/0b integer literal; any other string is NaN. Finite values are
kept as exact rationals: the conversion to a 64-bit float is not modelled, and
rounding never turns a nonzero mathematical value into zero except for
exponents below the double-precision underflow threshold, which no
content-length header carries. -/
def jsNumber (s : String) : JsNumber :=
  jsNumberOfTrimmed (jsTrim s.data)

/-- Number(response.headers['content-length']): on an absent header the code
converts undefined, which is NaN. -/
def contentLengthNum (header : Option String) : JsNumber :=
  match header with
  | none => JsNumber.nan
  | some s => jsNumber s

/-- The totalSize computation of gpt4all.ts line 127, Number(header) || 0: the
falsy numbers NaN and 0 (and -0) fall through to the literal 0, every other
number is kept. -/
def totalSizeOf (header : Option String) : JsNumber :=
  match contentLengthNum header with
  | JsNumber.nan => JsNumber.finite 0
  | x => x

/-- The two rejection shapes of downloadFile before any byte is written:
reject(response.statusCode || 'Failed to download') on a non-200 status, and
reject('Failed to download: No download size provided by server') when the
computed totalSize is 0. -/
inductive DownloadError where
  | badStatus (code : Option Nat)
  | noDownloadSize
deriving DecidableEq

/-- downloadFile (gpt4all.ts lines 119-146) from the point the final response
is in hand: a non-200 status rejects immediately, then a totalSize of 0 (the
strict totalSize === 0 check after Number(header) || 0) rejects with the
no-download-size error; both rejections happen before createWriteStream is
called, so at that point 0 bytes have been written to the destination.
Otherwise the body is piped to the destination and resolve fires on the
writer's finish event. The Nat of the result counts the bytes written to the
destination file. -/
def downloadFile (response : HttpResponse) (bodyLen : Nat) :
    Except DownloadError Unit × Nat :=
  if response.statusCode = some 200 then
    if totalSizeOf response.contentLength = JsNumber.finite 0 then
      (Except.error DownloadError.noDownloadSize, 0)
    else (Except.ok (), bodyLen)
  else (Except.error (DownloadError.badStatus response.statusCode), 0)

/-- A 301 redirect response pointing at a next hop. -/
def redirectRespA : HttpResponse :=
  { statusCode := some 301, location := some "u1", contentLength := none }

/-- A 302 redirect response pointing at a next hop. -/
def redirectRespB : HttpResponse :=
  { statusCode := some 302, location := some "u2", contentLength := none }

/-- A second 301 redirect response pointing at a final hop. -/
def redirectRespC : HttpResponse :=
  { statusCode := some 301, location := some "u3", contentLength := none }

/-- The terminal 200 response of the mocked redirect chain. -/
def okResp : HttpResponse :=
  { statusCode := some 200, location := none, contentLength := some "100" }

/-- C1, code behaviour at the failing input: with neither artifact present and
downloads still in flight, a first init(false) starts downloads of both the
executable and the model file, and a second init(false) issued before they
complete starts both downloads again. The field this.downloadPromises is never
assigned, so the memoization guard never fires and the pending work the claim
requires to be reused is not reused. -/
theorem init_duplicate_downloads :
    (GPT4All.init { downloadPromises := none, execPresent := false, modelPresent := false }
        false).2
      = [GPT4All.Artifact.executable, GPT4All.Artifact.modelFile] ∧
    (GPT4All.init
        (GPT4All.init { downloadPromises := none, execPresent := false, modelPresent := false }
          false).1 false).2
      = [GPT4All.Artifact.executable, GPT4All.Artifact.modelFile] := by decide

/-- C2, code behaviour at the failing input: a second prompt call issued while
the first is still pending is neither rejected (its stdin write goes through
immediately) nor queued (its data listener is registered at once beside the
first), and a subsequent stdout chunk is appended to BOTH pending calls'
response buffers — the interleaving the claim forbids. -/
theorem prompt_overlap_interleaves :
    (GPT4All.promptCall (GPT4All.promptCall { stdinWrites := [], listeners := [] } "a")
        "b").stdinWrites = ["a\n", "b\n"] ∧
    ((GPT4All.dataEvent
        (GPT4All.promptCall (GPT4All.promptCall { stdinWrites := [], listeners := [] } "a") "b")
        0 "x").1.listeners.map PendingResponse.response) = ["x", "x"] := by decide

/-- C3 counterexample: with the subprocess emitting exactly the chunks of the
claim — "hello> ", then a chunk matching the control-sequence, newline,
prompt-marker pattern — prompt resolves with "hello> " and not with "hello":
the accumulated text ends in a space, so the trailing-marker strip of
terminateAndResolve does not fire. -/
theorem prompt_hello_counterexample :
    matchesPromptPattern escPromptChunk = true ∧
    promptOutcomeWithSilence [(0, "hello> "), (1, escPromptChunk)] = some "hello> " ∧
    ("hello> " : String) ≠ "hello" :=
  ⟨by decide, by decide, by decide⟩

/-- C3 amended: with the chunks "hello> " then a matching control-sequence
chunk, prompt resolves via the pattern-match trigger at the matching chunk's
arrival (not via the idle timeout) with exactly "hello> ": the matching chunk
is excluded from the text, and the trailing prompt marker is not stripped
because a space follows it. -/
theorem prompt_hello_amended :
    runChunks { response := "", timer := none } [(0, "hello> "), (1, escPromptChunk)] =
      PromptOutcome.resolved "hello> " := by decide

/-- C5: a download whose final response lacks a content-length header always
fails — with the no-download-size rejection when the status is 200, and with
the non-200 status rejection otherwise — and in either case 0 bytes have been
written to the destination file: it never partially writes the file and
reports success. -/
theorem download_missing_length_fails (response : HttpResponse) (bodyLen : Nat)
    (h : response.contentLength = none) :
    ∃ e, downloadFile response bodyLen = (Except.error e, 0) := by
  by_cases hs : response.statusCode = some 200
  · exact ⟨DownloadError.noDownloadSize,
      by simp [downloadFile, hs, totalSizeOf, contentLengthNum, h]⟩
  · exact ⟨DownloadError.badStatus response.statusCode, by simp [downloadFile, hs]⟩

/-- Witness for C5 at a concrete 200 response without content-length. -/
theorem download_missing_length_fails_witness :
    ∃ e, downloadFile { statusCode := some 200, location := none, contentLength := none } 7 =
      (Except.error e, 0) :=
  download_missing_length_fails
    { statusCode := some 200, location := none, contentLength := none } 7 rfl

/-- C6: followRedirects returns the first non-redirect response of a finite
chain, making one get request per consumed response: for a chain of redirect
responses (each 301 or 302 carrying a Location) followed by a non-redirect
response, it returns that response after length-of-redirects + 1 requests. -/
theorem followRedirects_first_non_redirect (url : String) (redirs : List HttpResponse)
    (final : HttpResponse) (rest : List HttpResponse)
    (hred : ∀ r ∈ redirs, isRedirect r = true ∧ r.location.isSome = true)
    (hfin : isRedirect final = false) :
    followRedirects (some url) (redirs ++ final :: rest) =
      some (Except.ok (final, redirs.length + 1)) := by
  induction redirs generalizing url with
  | nil => simp [followRedirects, hfin]
  | cons r rs ih =>
    have hr := hred r (List.mem_cons_self r rs)
    obtain ⟨u2, hu2⟩ := Option.isSome_iff_exists.mp hr.2
    have hrs : ∀ x ∈ rs, isRedirect x = true ∧ x.location.isSome = true :=
      fun x hx => hred x (List.mem_cons_of_mem r hx)
    simp [followRedirects, hr.1, hu2, ih u2 hrs]

/-- Witness for C6: a mocked chain of 3 redirects ending in a 200 yields that
200 response after exactly 4 requests. -/
theorem followRedirects_first_non_redirect_witness :
    (∀ r ∈ [redirectRespA, redirectRespB, redirectRespC],
        isRedirect r = true ∧ r.location.isSome = true) ∧
    isRedirect okResp = false ∧
    followRedirects (some "u0")
        ([redirectRespA, redirectRespB, redirectRespC] ++ okResp :: []) =
      some (Except.ok (okResp, 4)) :=
  ⟨by decide, by decide,
    followRedirects_first_non_redirect "u0" [redirectRespA, redirectRespB, redirectRespC]
      okResp [] (by decide) (by decide)⟩

/-- C7: prompt() called with no live subprocess handle fails immediately with
the Bot-is-not-initialized error: no session state results from the call, so
no write to any subprocess stdin occurs and the call cannot hang. -/
theorem prompt_not_initialized (text : String) :
    GPT4All.promptEntry none text = Except.error "Bot is not initialized." := rfl

/-- C8: close is idempotent: a first close clears the handle, closing an
already-closed session is a no-op returning the unchanged closed state without
throwing, and across close() followed by close() the subprocess is killed at
most once. -/
theorem close_idempotent (bot : Option BotSession) :
    (GPT4All.close bot).1 = none ∧
    GPT4All.close (GPT4All.close bot).1 = (none, 0) ∧
    (GPT4All.close bot).2 + (GPT4All.close (GPT4All.close bot).1).2 ≤ 1 := by
  cases bot <;> simp [GPT4All.close]

/-- Sanity of the Number model on strings a decimal-only reading would
misclassify: Number parses scientific notation, surrounding white space,
fractions and hex prefixes to their nonzero values, the || 0 fallback keeps
them, and a 200 download carrying such a header proceeds to stream the body. -/
theorem jsNumber_nonzero_samples :
    jsNumber "1e3" = JsNumber.finite (mkRat 1000 1) ∧
    jsNumber " 12" = JsNumber.finite (mkRat 12 1) ∧
    jsNumber "12.5" = JsNumber.finite (mkRat 25 2) ∧
    jsNumber "0x10" = JsNumber.finite (mkRat 16 1) ∧
    downloadFile { statusCode := some 200, location := none, contentLength := some "1e3" } 9 =
      (Except.ok (), 9) :=
  ⟨by decide, by decide, by decide, by decide, rfl⟩

/-- Sanity of the Number model on zero-valued and unparseable strings: "0",
"-0", "0.0e2" and white space convert to 0, and a trailing garbage character,
a bare dot, a signed hex literal or an empty exponent convert to NaN. -/
theorem jsNumber_zero_and_nan_samples :
    jsNumber "0" = JsNumber.finite 0 ∧
    jsNumber "-0" = JsNumber.finite 0 ∧
    jsNumber "0.0e2" = JsNumber.finite 0 ∧
    jsNumber " " = JsNumber.finite 0 ∧
    jsNumber "12a" = JsNumber.nan ∧
    jsNumber "." = JsNumber.nan ∧
    jsNumber "-0x10" = JsNumber.nan ∧
    jsNumber "1e" = JsNumber.nan := by
  refine ⟨?_, ?_, ?_, ?_, ?_, ?_, ?_, ?_⟩ <;> decide

/-- C10: a content-length header whose value converts to 0 (such as "0") or is
not parseable as a number (Number gives NaN) behaves exactly like an absent
header — the size computation Number(header) || 0 collapses absent, zero and
unparseable values to 0 — so a 200 download carrying such a header is rejected
with the same no-download-size error, before any byte is written. -/
theorem zero_or_unparseable_length_same_error (status : Option Nat) (loc : Option String)
    (s : String) (bodyLen : Nat)
    (h : jsNumber s = JsNumber.nan ∨ jsNumber s = JsNumber.finite 0) :
    downloadFile { statusCode := status, location := loc, contentLength := some s } bodyLen =
      downloadFile { statusCode := status, location := loc, contentLength := none } bodyLen ∧
    downloadFile { statusCode := some 200, location := loc, contentLength := some s } bodyLen =
      (Except.error DownloadError.noDownloadSize, 0) := by
  have hsize : totalSizeOf (some s) = JsNumber.finite 0 := by
    cases h with
    | inl h2 => simp [totalSizeOf, contentLengthNum, h2]
    | inr h2 => simp [totalSizeOf, contentLengthNum, h2]
  constructor
  · by_cases hs : status = some 200 <;>
      simp [downloadFile, hs, hsize,
        show totalSizeOf none = JsNumber.finite 0 from rfl]
  · simp [downloadFile, hsize]

/-- Witness for C10 at concrete unparseable and zero header values. -/
theorem zero_or_unparseable_length_same_error_witness :
    (jsNumber "xyz" = JsNumber.nan ∨ jsNumber "xyz" = JsNumber.finite 0) ∧
    (downloadFile { statusCode := some 200, location := none, contentLength := some "xyz" } 9 =
        downloadFile { statusCode := some 200, location := none, contentLength := none } 9 ∧
      downloadFile { statusCode := some 200, location := none, contentLength := some "xyz" } 9 =
        (Except.error DownloadError.noDownloadSize, 0)) :=
  ⟨by decide, zero_or_unparseable_length_same_error (some 200) none "xyz" 9 (by decide)⟩

/-- Witness for C7 at a concrete prompt string. -/
theorem prompt_not_initialized_witness :
    GPT4All.promptEntry none "hi" = Except.error "Bot is not initialized." :=
  prompt_not_initialized "hi"

/-- Witness for C8 at a concrete open session. -/
theorem close_idempotent_witness :
    (GPT4All.close (some { stdinWrites := [], listeners := [] })).1 = none ∧
    GPT4All.close (GPT4All.close (some { stdinWrites := [], listeners := [] })).1 = (none, 0) ∧
    (GPT4All.close (some { stdinWrites := [], listeners := [] })).2 +
        (GPT4All.close (GPT4All.close (some { stdinWrites := [], listeners := [] })).1).2 ≤ 1 :=
  close_idempotent (some { stdinWrites := [], listeners := [] })
